import Mathlib

set_option maxRecDepth 100000

/-!
Verification development for two ReactOS kernel subsystems:

* `subsystems/win32/win32k/gre/gdiobj.c` — the GDI typed object handle table
  (allocation, validation, locking, freeing of objects behind opaque 32-bit
  handles);
* `ntoskrnl/cc/view.c` — the cache-manager view cache (VACBs, dirty tracking,
  lazy-writer flushing).

The C code is embedded shallowly: machine integers (`ULONG`, `LONG`,
pointer-sized words) become `Nat` with explicit `% 2 ^ 32` where 32-bit
wraparound matters; bit-mask operations on the fixed bit fields become
division/`%` by the corresponding powers of two (each definition notes the
original mask); kernel objects become structures; in-place mutation becomes
explicit state passing.  The interlocked (CAS) slot-lock protocol is embedded
sequentially: a compare-exchange that the single running thread would win is
taken, and a compare-exchange that would spin (`DelayExecution` retry loops)
is reported as a distinguished `blocked` outcome.  External collaborators
(pool allocation, virtual-memory mapping, backing-store writes, cleanup
callbacks, the lazy-writer thread) are out of scope per the specification and
appear as parameters or always-succeeding steps.
-/

/-! ## Handle-table constants

The numeric constants below come from win32k headers that are not part of the
two source files; they are modelled from the specification (§3.4, §3.5, §3.7):
a handle is a 32-bit value whose lower 16 bits are the slot index and whose
upper 16 bits snapshot the slot's `Type` field (base type bits, type byte with
the stock-object flag, and the 8-bit reuse counter); the table has
`GDI_HANDLE_COUNT = 16384` slots of which the first `RESERVE_ENTRIES_COUNT =
10` are never used.
-/

/-- Modelled from the spec: the object table holds 16384 slots. -/
def GDI_HANDLE_COUNT : Nat := 16384

/-- Modelled from the spec: the first 10 entries are never used. -/
def RESERVE_ENTRIES_COUNT : Nat := 10

/-- `GDI_ENTRY_REUSE_INC`: adding this to a slot's `Type` field increments the
8-bit reuse counter stored in bits 8–15. -/
def GDI_ENTRY_REUSE_INC : Nat := 256

/-- `GDI_HANDLE_GET_INDEX(h) = h & (GDI_HANDLE_COUNT - 1)`: the slot index of
a handle, i.e. the handle reduced modulo the (power of two) table size. -/
def GDI_HANDLE_GET_INDEX (h : Nat) : Nat := h % GDI_HANDLE_COUNT

/-- `GDI_HANDLE_GET_TYPE(h) = h & 0x007F0000`: the type bits of a handle
(bits 16–22), kept in place. -/
def GDI_HANDLE_GET_TYPE (h : Nat) : Nat := h / 65536 % 128 * 65536

/-- `GDI_HANDLE_GET_UPPER(h) = h & 0xFFFF0000`: the upper 16 bits of a
handle, kept in place. -/
def GDI_HANDLE_GET_UPPER (h : Nat) : Nat := h / 65536 % 65536 * 65536

/-- `GDI_HANDLE_IS_STOCKOBJ(h) = h & 0x00800000`: bit 23 of a handle is the
stock-object flag. -/
def GDI_HANDLE_IS_STOCKOBJ (h : Nat) : Bool := h / 8388608 % 2 = 1

/-- `x & GDI_ENTRY_BASETYPE_MASK` (`0x001F0000`): the base-type bits
(16–20) of a slot `Type` word (or of a handle-upper word), kept in place. -/
def andEntryBaseTypeMask (x : Nat) : Nat := x / 65536 % 32 * 65536

/-- `GDI_ENTRY_GET_REUSECNT`: bits 8–15 of a slot `Type` word, the 8-bit
reuse counter. -/
def entryReuseCount (t : Nat) : Nat := t / 256 % 256

/-- `Entry->Type << GDI_ENTRY_UPPER_SHIFT` on a 32-bit `LONG`: the low 16
bits of the `Type` word shifted into the upper half, the rest lost. -/
def entryTypeShifted (t : Nat) : Nat := t % 65536 * 65536

/-- `t & ~GDI_ENTRY_BASETYPE_MASK`: clear bits 16–20 of a 32-bit word,
keeping bits 0–15 and bits 21–31. -/
def clearEntryBaseType (t : Nat) : Nat := t % 65536 + t / 2097152 % 2048 * 2097152

/-- `ProcessId & ~0x1`: the owner word of a slot with the lock bit masked
off. -/
def ownerOfProcessWord (p : Nat) : Nat := p - p % 2

/-- The handle built by `GDIOBJ_AllocObjWithHandle`:
`(Index & 0xFFFF) | (TypeInfo << GDI_ENTRY_UPPER_SHIFT)` on 32 bits.  The two
operands occupy disjoint bit ranges, so the bitwise or is a sum. -/
def mkHandle (index typeInfo : Nat) : Nat := index % 65536 + typeInfo % 65536 * 65536

/-! ## Handle-table data model -/

/-- The body header `BASEOBJECT` placed at the start of every tracked object.
`BaseFlags` is reduced to the one flag the code under scrutiny uses,
`BASEFLAG_READY_TO_DIE` (modelled from the spec §3.6). -/
structure BASEOBJECT where
  hHmgr : Option Nat
  ulShareCount : Nat
  cExclusiveLock : Nat
  Tid : Nat
  readyToDie : Bool
deriving DecidableEq, Repr

/-- The `KernelData` word of a slot: `NULL`, a pointer to the object body, or
— for slots on the free list — the index of the next free slot. -/
inductive KernelWord where
  | null
  | obj (o : BASEOBJECT)
  | freeIndex (idx : Nat)
deriving DecidableEq, Repr

/-- One cell of the GDI handle table (`GDI_TABLE_ENTRY`).  `typeWord` models
the 32-bit `Type` field; `ProcessId` the tagged owner word (low bit = lock
flag). -/
structure GDI_TABLE_ENTRY where
  KernelData : KernelWord
  ProcessId : Nat
  typeWord : Nat
  UserData : Nat
deriving DecidableEq, Repr

/-- The handle table contents, as a total map from slot index to entry. -/
abbrev GdiTable := Nat → GDI_TABLE_ENTRY

/-- The mutable state touched by the gdiobj.c operations: the entry array,
the two free-list frontiers of `GDI_HANDLE_TABLE`, and the calling process's
`GDIHandleCount`. -/
structure GdiState where
  entries : GdiTable
  firstFree : Nat
  firstUnused : Nat
  gdiHandleCount : Nat

/-! ## GDIOBJ_ValidateHandle -/

/-- `GDIOBJ_ValidateHandle` (gdiobj.c lines 344–359): stateless validation of
`hObj` against `ObjectType` for the process `curPid`.  The entry is fetched at
the masked index; the handle's type bits must equal `ObjectType`, the entry's
`Type` shifted left by 16 must equal the handle's upper 16 bits, and the
entry's owner word (lock bit masked off) must be `NULL` or the current
process. -/
def GDIOBJ_ValidateHandle (tbl : GdiTable) (curPid hObj objectType : Nat) : Bool :=
  let e := tbl (GDI_HANDLE_GET_INDEX hObj)
  if GDI_HANDLE_GET_TYPE hObj = objectType ∧
     entryTypeShifted e.typeWord = GDI_HANDLE_GET_UPPER hObj then
    let pid := ownerOfProcessWord e.ProcessId
    if pid = 0 ∨ pid = curPid then true else false
  else false


/-! ## Free-list pop / push -/

/-- Write one slot of the table. -/
def setEntry (st : GdiState) (idx : Nat) (e : GDI_TABLE_ENTRY) : GdiState :=
  { st with entries := fun j => if j = idx then e else st.entries j }

/-- `InterlockedPopFreeEntry` (gdiobj.c lines 251–313), sequentially: when
`FirstFree` is zero, `FirstUnused` is incremented and its old value returned
unless the table is exhausted (then 0 is returned, the increment kept);
otherwise the head of the free list is locked, its `KernelData` read as the
next free index, and `FirstFree` swung to it.  In the sequential embedding the
slot lock and the compare-exchange always succeed (free slots carry a zero
owner word, §3.4 invariant (c)/(I4)); the transient `ProcessId` lock bit is
set and cleared within the call, leaving the entry unchanged. -/
def InterlockedPopFreeEntry (st : GdiState) : Nat × GdiState :=
  if st.firstFree = 0 then
    let idxFirst := st.firstUnused
    let st := { st with firstUnused := st.firstUnused + 1 }
    if GDI_HANDLE_COUNT ≤ idxFirst then (0, st) else (idxFirst, st)
  else
    let idxFirst := st.firstFree
    let idxNext := match (st.entries idxFirst).KernelData with
      | .freeIndex n => n
      | _ => 0
    (idxFirst, { st with firstFree := idxNext })

/-- `InterlockedPushFreeEntry` (gdiobj.c lines 317–341): clear the slot's
`UserData`, store the old free-list head in its `KernelData`, and install the
slot as the new head. -/
def InterlockedPushFreeEntry (st : GdiState) (idxToFree : Nat) : GdiState :=
  let e := st.entries idxToFree
  let st := setEntry st idxToFree
    { e with UserData := 0, KernelData := .freeIndex st.firstFree }
  { st with firstFree := idxToFree }

/-! ## GDIOBJ_AllocObjWithHandle -/

/-- `TypeInfo = (ObjectType & GDI_HANDLE_BASETYPE_MASK) | (ObjectType >>
GDI_ENTRY_UPPER_SHIFT)` (gdiobj.c line 442).  The base-type bits stay in
place (bits 16–20) and the full type word moves into the low 16 bits; the two
ranges are disjoint, so the bitwise or is a sum. -/
def typeInfoOfObjectType (objectType : Nat) : Nat :=
  andEntryBaseTypeMask objectType + objectType / 65536

/-- `TypeInfo |= Entry->Type & GDI_ENTRY_REUSE_MASK` (gdiobj.c line 461): the
slot's reuse counter (bits 8–15) is copied into `TypeInfo`.  For every real
`GDI_OBJECT_TYPE_*` constant (all below `2 ^ 24`) bits 8–15 of `TypeInfo` are
zero, so the bitwise or is a sum. -/
def stampTypeInfo (objectType oldTypeWord : Nat) : Nat :=
  typeInfoOfObjectType objectType + entryReuseCount oldTypeWord * 256

/-- Outcome of `GDIOBJ_AllocObjWithHandle`: a freshly allocated body, the
`NULL` failure return, or the `DelayExecution` retry loop of a contended slot
lock (which the sequential embedding cannot win). -/
inductive AllocOutcome where
  | success (o : BASEOBJECT)
  | failure
  | blocked
deriving DecidableEq, Repr

/-- `GDIOBJ_AllocObjWithHandle` (gdiobj.c lines 399–509), sequentially.  The
per-process quota gate fails above 0x2710 handles; the body allocation
(`GDIOBJ_AllocObj`, external pool/lookaside) always succeeds and
zero-initializes; a free slot index is popped; the slot is locked by
compare-exchanging its owner word from 0 to `pid | 1` (a nonzero owner word
means the exchange fails and the code delays and retries — `blocked` here);
the entry is stamped with the new `TypeInfo` (reuse counter preserved), the
handle is built, the body header initialized with one exclusive lock held by
the calling thread, the slot unlocked with the owning process id, and the
per-process handle count incremented. -/
def GDIOBJ_AllocObjWithHandle (st : GdiState) (curPid curTid objectType : Nat) :
    AllocOutcome × GdiState :=
  if 10000 ≤ st.gdiHandleCount then (.failure, st)
  else
    let typeInfo0 := typeInfoOfObjectType objectType
    let popped := InterlockedPopFreeEntry st
    let index := popped.1
    let st1 := popped.2
    if index ≠ 0 then
      let e := st1.entries index
      if e.ProcessId = 0 then
        let typeInfo := typeInfo0 + entryReuseCount e.typeWord * 256
        let handle := mkHandle index typeInfo
        let o : BASEOBJECT :=
          { hHmgr := some handle, ulShareCount := 0, cExclusiveLock := 1,
            Tid := curTid, readyToDie := false }
        let st2 := setEntry st1 index
          { e with KernelData := .obj o, typeWord := typeInfo, ProcessId := curPid }
        (.success o, { st2 with gdiHandleCount := st2.gdiHandleCount + 1 })
      else (.blocked, st1)
    else (.failure, st1)

/-! ## GDIOBJ_FreeObjByHandle -/

/-- Outcome of `GDIOBJ_FreeObjByHandle`: the `BOOL` return value, or the
`DelayExecution` retry loop (slot locked by another actor, or body
exclusively locked by another thread) which the sequential embedding cannot
win. -/
inductive FreeOutcome where
  | ret (b : Bool)
  | blocked
deriving DecidableEq, Repr

/-- `GDIOBJ_FreeObjByHandle` (gdiobj.c lines 543–694), sequentially.
`cleanup` stands for the per-type `CleanupProc` callback (external).  Stock
handles are refused outright.  `GDI_OBJECT_TYPE_SILENT` (bit 31) is stripped
from `expectedType`; a type mismatch (unless `GDI_OBJECT_TYPE_DONTCARE = 0`)
or a zero handle type is refused.  The slot is locked by compare-exchanging
the owner word from `curPid` to `curPid | 1` (process ids are even, so the
locked word is `curPid + 1`); a currently locked slot means delay-and-retry
(`blocked`), any other owner word is the not-owner failure path.  With the
slot locked and the entry matching the handle, an unlocked body (shared count
zero, exclusive lock free or held by this thread) is freed: the entry's
`Type` gains one reuse increment and loses its base-type bits, the slot is
unlocked with a `NULL` owner, pushed on the free list, the body's handle
back-reference cleared, the per-process count decremented, and the cleanup
callback's result returned.  A body with a nonzero share count gets
`BASEFLAG_READY_TO_DIE`, the owner word restored, and `FALSE` returned. -/
def GDIOBJ_FreeObjByHandle (cleanup : BASEOBJECT → Bool) (st : GdiState)
    (curPid curTid hObj expectedTypeArg : Nat) : FreeOutcome × GdiState :=
  if GDI_HANDLE_IS_STOCKOBJ hObj then (.ret false, st)
  else
    let expectedType := expectedTypeArg % 2147483648
    let handleType := GDI_HANDLE_GET_TYPE hObj
    let handleUpper := GDI_HANDLE_GET_UPPER hObj
    if (expectedType ≠ 0 ∧ handleType ≠ expectedType) ∨ handleType = 0 then (.ret false, st)
    else
      let idx := GDI_HANDLE_GET_INDEX hObj
      let e := st.entries idx
      if e.ProcessId = curPid then
        match e.KernelData with
        | .obj o =>
          if entryTypeShifted e.typeWord = handleUpper ∧
             andEntryBaseTypeMask e.typeWord = andEntryBaseTypeMask handleUpper then
            if (o.cExclusiveLock = 0 ∨ o.Tid = curTid) ∧ o.ulShareCount = 0 then
              let newType := clearEntryBaseType ((e.typeWord + GDI_ENTRY_REUSE_INC) % 4294967296)
              let st1 := setEntry st idx { e with typeWord := newType, ProcessId := 0 }
              let st2 := InterlockedPushFreeEntry st1 idx
              let o1 := { o with hHmgr := none }
              (.ret (cleanup o1), { st2 with gdiHandleCount := st2.gdiHandleCount - 1 })
            else if o.ulShareCount ≠ 0 then
              let o1 := { o with readyToDie := true }
              (.ret false, setEntry st idx { e with KernelData := .obj o1 })
            else (.blocked, st)
          else (.ret false, st)
        | .null => (.ret false, st)
        | .freeIndex _ => (.ret false, st)
      else if e.ProcessId = curPid + 1 then (.blocked, st)
      else (.ret false, st)

/-! ## GDIOBJ_UnlockObjByPtr -/

/-- `GDIOBJ_UnlockObjByPtr` (gdiobj.c lines 955–961): an unconditional
`InterlockedDecrement` of the 32-bit `cExclusiveLock`, returning the
decremented value.  (`ASSERT(cLocks >= 0)` is compiled out by the `NDEBUG`
definition at the top of the file.) -/
def GDIOBJ_UnlockObjByPtr (o : BASEOBJECT) : Nat × BASEOBJECT :=
  let cLocks := (o.cExclusiveLock + 4294967296 - 1) % 4294967296
  (cLocks, { o with cExclusiveLock := cLocks })

/-! ## View cache (ntoskrnl/cc/view.c)

`VACB_MAPPING_GRANULARITY` and `PAGE_SIZE` come from headers that are not
part of the source files; they are modelled from the specification (§3.1,
glossary): the mapping granularity `G` is 256 KiB and pages are 4 KiB.
`NTSTATUS` is a 32-bit word whose sign bit distinguishes success from error
(`NT_SUCCESS`). -/

/-- Modelled from the spec: the mapping granularity `G` is 256 KiB. -/
def VACB_MAPPING_GRANULARITY : Nat := 262144

/-- Modelled from the spec: 4 KiB pages. -/
def PAGE_SIZE : Nat := 4096

def STATUS_SUCCESS : Nat := 0
def STATUS_UNSUCCESSFUL : Nat := 3221225473
def STATUS_INVALID_PARAMETER : Nat := 3221225485
def STATUS_END_OF_FILE : Nat := 3221225489
def STATUS_MEDIA_WRITE_PROTECTED : Nat := 3221225634

/-- `NT_SUCCESS(Status)`: a 32-bit `NTSTATUS` is a success value when its
sign bit (bit 31) is clear. -/
def NT_SUCCESS (s : Nat) : Prop := s < 2147483648

instance (s : Nat) : Decidable (NT_SUCCESS s) := by unfold NT_SUCCESS; infer_instance

/-- One `ROS_VACB`: a mapped `G`-byte window of a file.  The base address and
the `MEMORY_AREA` are external virtual-memory artifacts and are not modelled;
the three intrusive list hooks are represented by offset membership in the
per-map list and the two global lists (a VACB is identified in those lists by
its `fileOffset`, which is unique per map by invariant (I3)). -/
structure ROS_VACB where
  fileOffset : Nat
  valid : Bool
  dirty : Bool
  pageOut : Bool
  mappedCount : Nat
  referenceCount : Nat
  pinCount : Nat
deriving DecidableEq, Repr

/-- The global view-cache state touched by the embedded operations:
`CcTotalDirtyPages`, the global dirty FIFO `DirtyVacbListHead` and the LRU
list `VacbLruListHead`, both as lists of VACB file offsets (front = head). -/
structure CcGlobals where
  totalDirtyPages : Nat
  dirtyList : List Nat
  lruList : List Nat
deriving DecidableEq, Repr

/-- The per-file `ROS_SHARED_CACHE_MAP` fields the embedded operations
touch: `SectionSize`, the per-map dirty-page count, and the ordered VACB
list. -/
structure ROS_SHARED_CACHE_MAP where
  sectionSize : Nat
  dirtyPages : Nat
  vacbs : List ROS_VACB
deriving DecidableEq, Repr

/-- `IsPointInRange(start, length, pt)`: `start <= pt < start + length`. -/
def IsPointInRange (start length pt : Nat) : Prop := start ≤ pt ∧ pt < start + length

instance (s l p : Nat) : Decidable (IsPointInRange s l p) := by
  unfold IsPointInRange; infer_instance

/-- The list walk of `CcRosLookupVacb` (view.c lines 454–496): return the
first VACB whose `G`-byte window covers `FileOffset`, giving up early once
the (sorted) list passes the offset.  The reference-count increment that
`CcRosLookupVacb` performs on a hit is applied by the callers below, as the
returned copy. -/
def CcRosLookupVacbFind : List ROS_VACB → Nat → Option ROS_VACB
  | [], _ => none
  | v :: rest, fileOffset =>
    if IsPointInRange v.fileOffset VACB_MAPPING_GRANULARITY fileOffset then some v
    else if fileOffset < v.fileOffset then none
    else CcRosLookupVacbFind rest fileOffset

/-- Replace the (unique) VACB with the given file offset by `v`. -/
def replaceVacb (l : List ROS_VACB) (v : ROS_VACB) : List ROS_VACB :=
  l.map fun w => if w.fileOffset = v.fileOffset then v else w

/-- Insert a new VACB in front of the first entry with a larger file offset
(the sorted-insert walk of `CcRosCreateVacb`, view.c lines 759–808). -/
def insertVacbSorted (l : List ROS_VACB) (v : ROS_VACB) : List ROS_VACB :=
  match l with
  | [] => [v]
  | w :: rest =>
    if v.fileOffset < w.fileOffset then v :: w :: rest
    else w :: insertVacbSorted rest v

/-- `CcRosMarkDirtyVacb` (view.c lines 498–534): append the VACB to the
global dirty FIFO, charge `G / PAGE_SIZE` pages to the global and per-map
dirty counts, take a reference for the dirty-list membership, move the VACB
to the tail of the LRU list, and set its dirty flag.  (The code asserts the
VACB was not dirty; the lazy-writer scheduling at the end is external.) -/
def CcRosMarkDirtyVacb (g : CcGlobals) (m : ROS_SHARED_CACHE_MAP) (v : ROS_VACB) :
    CcGlobals × ROS_SHARED_CACHE_MAP × ROS_VACB :=
  let pages := VACB_MAPPING_GRANULARITY / PAGE_SIZE
  ({ g with totalDirtyPages := g.totalDirtyPages + pages,
            dirtyList := g.dirtyList ++ [v.fileOffset],
            lruList := g.lruList.erase v.fileOffset ++ [v.fileOffset] },
   { m with dirtyPages := m.dirtyPages + pages },
   { v with dirty := true, referenceCount := v.referenceCount + 1 })

/-- `CcRosReleaseVacb` (view.c lines 417–451): set the valid flag from the
argument unconditionally; if the dirty argument is set and the VACB is not
already dirty, mark it dirty; if the mapped argument is set, increment
`MappedCount` and take an extra reference exactly when the incremented count
is 1; finally drop one reference (the code asserts the count stays
positive). -/
def CcRosReleaseVacb (g : CcGlobals) (m : ROS_SHARED_CACHE_MAP) (v : ROS_VACB)
    (validArg dirtyArg mappedArg : Bool) : CcGlobals × ROS_SHARED_CACHE_MAP × ROS_VACB :=
  let v := { v with valid := validArg }
  let gmv := if dirtyArg = true ∧ v.dirty = false then CcRosMarkDirtyVacb g m v else (g, m, v)
  let g := gmv.1
  let m := gmv.2.1
  let v := gmv.2.2
  let v :=
    if mappedArg = true then
      let v := { v with mappedCount := v.mappedCount + 1 }
      if v.mappedCount = 1 then { v with referenceCount := v.referenceCount + 1 } else v
    else v
  (g, m, { v with referenceCount := v.referenceCount - 1 })

/-- `CcRosMarkDirtyFile` (view.c lines 570–592): look the VACB up (taking a
reference); a miss is a fatal inconsistency (`KeBugCheck(CACHE_MANAGER)`,
the `error` case); a hit is released with `Valid = Vacb->Valid`,
`Dirty = TRUE`, `Mapped = FALSE`. -/
def CcRosMarkDirtyFile (g : CcGlobals) (m : ROS_SHARED_CACHE_MAP) (fileOffset : Nat) :
    Except Unit (CcGlobals × ROS_SHARED_CACHE_MAP × ROS_VACB) :=
  match CcRosLookupVacbFind m.vacbs fileOffset with
  | none => .error ()
  | some v =>
    let v := { v with referenceCount := v.referenceCount + 1 }
    .ok (CcRosReleaseVacb g m v v.valid true false)

/-- `CcRosCreateVacb` (view.c lines 696–836), sequentially.  An offset at or
past the section size fails with `STATUS_INVALID_PARAMETER` and no VACB.
Otherwise the new VACB is built (offset rounded down to `G`, one reference
for the creator; the kernel-space mapping is an external step taken as
succeeding), the race re-check under the lock looks the offset up again (a
hit would hand back the existing VACB and discard the new one), the VACB is
inserted in file-offset order into the map list and appended to the LRU
tail, and a second reference is taken so the caller can release. -/
def CcRosCreateVacb (g : CcGlobals) (m : ROS_SHARED_CACHE_MAP) (fileOffset : Nat) :
    Nat × Option ROS_VACB × CcGlobals × ROS_SHARED_CACHE_MAP :=
  if m.sectionSize ≤ fileOffset then (STATUS_INVALID_PARAMETER, none, g, m)
  else
    let current : ROS_VACB :=
      { fileOffset := fileOffset / VACB_MAPPING_GRANULARITY * VACB_MAPPING_GRANULARITY,
        valid := false, dirty := false, pageOut := false,
        mappedCount := 0, referenceCount := 1, pinCount := 0 }
    match CcRosLookupVacbFind m.vacbs fileOffset with
    | some existing =>
      let existing := { existing with referenceCount := existing.referenceCount + 1 }
      (STATUS_SUCCESS, some existing, g, { m with vacbs := replaceVacb m.vacbs existing })
    | none =>
      let current := { current with referenceCount := current.referenceCount + 1 }
      (STATUS_SUCCESS, some current,
       { g with lruList := g.lruList ++ [current.fileOffset] },
       { m with vacbs := insertVacbSorted m.vacbs current })

/-- `CcRosGetVacb` (view.c lines 838–894): look the offset up (taking a
reference on a hit) or create a VACB; a creation failure returns its status
with nothing changed; on success the VACB moves to the tail of the LRU list
and is returned (the caller receives `Valid`, `BaseAddress` and the base
offset from it). -/
def CcRosGetVacb (g : CcGlobals) (m : ROS_SHARED_CACHE_MAP) (fileOffset : Nat) :
    Nat × CcGlobals × ROS_SHARED_CACHE_MAP × Option ROS_VACB :=
  match CcRosLookupVacbFind m.vacbs fileOffset with
  | some v =>
    let v := { v with referenceCount := v.referenceCount + 1 }
    let m := { m with vacbs := replaceVacb m.vacbs v }
    let g := { g with lruList := g.lruList.erase v.fileOffset ++ [v.fileOffset] }
    (STATUS_SUCCESS, g, m, some v)
  | none =>
    match CcRosCreateVacb g m fileOffset with
    | (status, none, g1, m1) => (status, g1, m1, none)
    | (status, some v, g1, m1) =>
      let g1 := { g1 with lruList := g1.lruList.erase v.fileOffset ++ [v.fileOffset] }
      (status, g1, m1, some v)

/-! ## CcRosFlushDirtyPages -/

/-- The per-VACB data consumed by one iteration of the `CcRosFlushDirtyPages`
walk: whether the owning file is temporary (`FO_TEMPORARY_FILE`), what the
`AcquireForLazyWrite` callback answers, the reference count before the
walk's own transient reference, and the `NTSTATUS` that
`CcRosFlushVacb` (i.e. the backing-store write) returns for it. -/
structure FlushVacb where
  temporary : Bool
  acquireOk : Bool
  referenceCount : Nat
  flushStatus : Nat
deriving DecidableEq, Repr

/-- The skip conditions of the `CcRosFlushDirtyPages` loop body (view.c
lines 215–240): temporary files on the lazy path, `AcquireForLazyWrite`
refusal, and any other borrower (reference count above 2 counting the
walk's transient reference).  None of the three has a lasting effect on the
modelled state, so a combined short-circuit test is faithful. -/
def flushSkip (calledFromLazy : Bool) (v : FlushVacb) : Bool :=
  (calledFromLazy && v.temporary) || !v.acquireOk || decide (2 < v.referenceCount + 1)

/-- The head-to-tail scan of the dirty list done by one pass of the
`CcRosFlushDirtyPages` loop (view.c lines 206–250): advance over skipped
entries until the first VACB the pass may flush.  Returns that VACB together
with the dirty list as it stands after the flush attempt: `CcRosFlushVacb`
(view.c lines 166–178) calls `CcRosUnmarkDirtyVacb` — which removes the
VACB from the dirty list — only when the write status is `NT_SUCCESS`, so
on any other status (`STATUS_END_OF_FILE` and
`STATUS_MEDIA_WRITE_PROTECTED` included) the VACB keeps its place.
`none` means the scan ran off the end of the list without flushing. -/
def flushFindVictim (calledFromLazy : Bool) :
    List FlushVacb → Option (FlushVacb × List FlushVacb)
  | [] => none
  | v :: rest =>
    if flushSkip calledFromLazy v then
      match flushFindVictim calledFromLazy rest with
      | none => none
      | some (w, rest2) => some (w, v :: rest2)
    else
      some (v, if NT_SUCCESS v.flushStatus then rest else v :: rest)

/-- The `CcRosFlushDirtyPages` loop (view.c lines 200–278) acting on the
dirty list, the remaining `Target` and the accumulated `*Count`.  While the
scan finds a flushable VACB and `Target > 0`: flush it, and unless the
status is a non-success other than `STATUS_END_OF_FILE` and
`STATUS_MEDIA_WRITE_PROTECTED`, credit `G / PAGE_SIZE` freed pages and
subtract them from the target, jumping to zero rather than underflowing;
then — line 277 — restart `current_entry` from the dirty-list head, whether
or not the flush succeeded or credited.  Because a persistently failing
VACB stays on the list and leaves `Target` unchanged, the loop need not
terminate; recursion is metered by explicit fuel and `none` reports the
meter's expiry. -/
def flushLoop (calledFromLazy : Bool) :
    Nat → List FlushVacb → Nat → Nat → Option (List FlushVacb × Nat × Nat)
  | 0, _, _, _ => none
  | fuel + 1, dirty, target, count =>
    if target = 0 then some (dirty, target, count)
    else
      match flushFindVictim calledFromLazy dirty with
      | none => some (dirty, target, count)
      | some (v, dirty2) =>
        if ¬ NT_SUCCESS v.flushStatus ∧ v.flushStatus ≠ STATUS_END_OF_FILE ∧
            v.flushStatus ≠ STATUS_MEDIA_WRITE_PROTECTED then
          flushLoop calledFromLazy fuel dirty2 target count
        else
          flushLoop calledFromLazy fuel dirty2
            (if target < VACB_MAPPING_GRANULARITY / PAGE_SIZE then 0
             else target - VACB_MAPPING_GRANULARITY / PAGE_SIZE)
            (count + VACB_MAPPING_GRANULARITY / PAGE_SIZE)

/-- `CcRosFlushDirtyPages` (view.c lines 180–285): zero `*Count`, then run
the loop.  The C function always returns `STATUS_SUCCESS`; the model
returns the final dirty list, remaining target and count (or `none` when
the fuel meter expires before the loop exits). -/
def CcRosFlushDirtyPages (calledFromLazy : Bool) (fuel : Nat)
    (dirty : List FlushVacb) (target : Nat) :
    Option (List FlushVacb × Nat × Nat) :=
  flushLoop calledFromLazy fuel dirty target 0

/-! ## Claim C1 -/

/-- Modelled from the spec: the check claim C1 ascribes to `validate_handle`
— slot index below the table size, slot `Type` shifted left by 16 equal to
the handle's upper 16 bits, slot owner (lock bit masked off) the current
process or null.  (No condition involves the expected type.) -/
def validateHandleSpecC1 (tbl : GdiTable) (curPid hObj : Nat) : Prop :=
  GDI_HANDLE_GET_INDEX hObj < GDI_HANDLE_COUNT ∧
  entryTypeShifted (tbl (GDI_HANDLE_GET_INDEX hObj)).typeWord = GDI_HANDLE_GET_UPPER hObj ∧
  (ownerOfProcessWord (tbl (GDI_HANDLE_GET_INDEX hObj)).ProcessId = 0 ∨
   ownerOfProcessWord (tbl (GDI_HANDLE_GET_INDEX hObj)).ProcessId = curPid)

instance (tbl : GdiTable) (p h : Nat) : Decidable (validateHandleSpecC1 tbl p h) := by
  unfold validateHandleSpecC1; infer_instance

/-- Claim C1, counterexample.  A handle whose slot satisfies all three
conditions the claim lists (index below the table size, matching upper bits,
null owner) is nevertheless rejected when the expected type passed in does
not equal the handle's type bits: the table entry at index 12 has `Type =
0x0101`, the handle `0x0101000C` matches it and the owner is null, yet
validation against expected type `0x00100000` (BRUSH) returns false because
the handle's type bits are `0x00010000` (DC). -/
theorem validateHandle_claimC1_counterexample :
    validateHandleSpecC1 (fun _ => ⟨.null, 0, 257, 0⟩) 4 16842764 ∧
    GDIOBJ_ValidateHandle (fun _ => ⟨.null, 0, 257, 0⟩) 4 16842764 1048576 = false := by
  constructor
  · decide
  · decide

/-- Claim C1, amended: `GDIOBJ_ValidateHandle` succeeds exactly when the
handle's (masked) slot index is below the table size — which always holds,
since the index is the handle reduced modulo the table size; there is no
range rejection — **and the handle's type bits equal the expected type**, and
the slot's `Type` shifted left by 16 equals the handle's upper 16 bits, and
the slot's owner (lock bit masked off) is the current process or null. -/
theorem validateHandle_characterization (tbl : GdiTable) (curPid hObj objectType : Nat) :
    GDIOBJ_ValidateHandle tbl curPid hObj objectType = true ↔
      GDI_HANDLE_GET_INDEX hObj < GDI_HANDLE_COUNT ∧
      GDI_HANDLE_GET_TYPE hObj = objectType ∧
      entryTypeShifted (tbl (GDI_HANDLE_GET_INDEX hObj)).typeWord = GDI_HANDLE_GET_UPPER hObj ∧
      (ownerOfProcessWord (tbl (GDI_HANDLE_GET_INDEX hObj)).ProcessId = 0 ∨
       ownerOfProcessWord (tbl (GDI_HANDLE_GET_INDEX hObj)).ProcessId = curPid) := by
  have hidx : GDI_HANDLE_GET_INDEX hObj < GDI_HANDLE_COUNT :=
    Nat.mod_lt _ (by norm_num [GDI_HANDLE_COUNT])
  unfold GDIOBJ_ValidateHandle
  dsimp only
  split_ifs with h1 h2 <;> simp_all

/-! ## Claim C2 -/

/-- A concrete quiescent handle-table state (all slots empty). -/
def gdiEmptyState : GdiState := ⟨fun _ => ⟨.null, 0, 0, 0⟩, 0, 10, 0⟩

/-- Claim C2, counterexample.  `0x0080000A` is a stock-object handle (bit 23
set); `GDIOBJ_FreeObjByHandle` on it returns the ordinary error result
`FALSE` with the state untouched — it does not trigger any bug-check or
panic (the function's only exit for stock handles is the `return FALSE` at
gdiobj.c line 557). -/
theorem freeObj_stock_claimC2_counterexample :
    GDI_HANDLE_IS_STOCKOBJ 8388618 = true ∧
    GDIOBJ_FreeObjByHandle (fun _ => true) gdiEmptyState 4 7 8388618 0 =
      (.ret false, gdiEmptyState) := ⟨rfl, rfl⟩

/-- Claim C2, amended: for every handle whose stock-object bit is set,
`GDIOBJ_FreeObjByHandle` refuses the free by returning the error result
`FALSE` immediately, with the table, free list and handle counts untouched
(no bug-check is raised). -/
theorem freeObj_stock_returns_false (cleanup : BASEOBJECT → Bool) (st : GdiState)
    (curPid curTid hObj expectedType : Nat)
    (hstock : GDI_HANDLE_IS_STOCKOBJ hObj = true) :
    GDIOBJ_FreeObjByHandle cleanup st curPid curTid hObj expectedType = (.ret false, st) := by
  unfold GDIOBJ_FreeObjByHandle
  rw [hstock]
  simp

/-- Witness for the amended claim C2 theorem at the stock handle
`0x0080000A`. -/
theorem freeObj_stock_returns_false_witness :
    GDI_HANDLE_IS_STOCKOBJ 8388618 = true ∧
    GDIOBJ_FreeObjByHandle (fun _ => false) ⟨fun _ => ⟨.null, 0, 4369, 0⟩, 0, 10, 3⟩
      8 9 8388618 1048576 = (.ret false, ⟨fun _ => ⟨.null, 0, 4369, 0⟩, 0, 10, 3⟩) :=
  ⟨by decide, freeObj_stock_returns_false _ _ _ _ _ _ (by decide)⟩

/-! ## Claim C3 -/

/-- Claim C3: `CcRosReleaseVacb` sets the valid flag from the argument
unconditionally; when the dirty argument is set and the VACB was not already
dirty it marks the VACB dirty (flag set, appended to the global dirty FIFO);
when the mapped argument is set it increments `MappedCount`; and the final
reference count is the initial one, plus the dirty-list reference taken when
marking dirty, plus one extra reference exactly on the 0-to-1 transition of
`MappedCount`, minus the single final decrement. -/
theorem releaseVacb_claimC3 (g : CcGlobals) (m : ROS_SHARED_CACHE_MAP) (v : ROS_VACB)
    (validArg dirtyArg mappedArg : Bool) (href : 1 ≤ v.referenceCount) :
    (CcRosReleaseVacb g m v validArg dirtyArg mappedArg).2.2.valid = validArg ∧
    (dirtyArg = true → v.dirty = false →
      (CcRosReleaseVacb g m v validArg dirtyArg mappedArg).2.2.dirty = true ∧
      (CcRosReleaseVacb g m v validArg dirtyArg mappedArg).1.dirtyList =
        g.dirtyList ++ [v.fileOffset]) ∧
    (mappedArg = true →
      (CcRosReleaseVacb g m v validArg dirtyArg mappedArg).2.2.mappedCount =
        v.mappedCount + 1) ∧
    (CcRosReleaseVacb g m v validArg dirtyArg mappedArg).2.2.referenceCount + 1 =
      v.referenceCount
        + (if dirtyArg = true ∧ v.dirty = false then 1 else 0)
        + (if mappedArg = true ∧ v.mappedCount = 0 then 1 else 0) := by
  obtain ⟨fo, vl, dr, po, mc, rc, pc⟩ := v
  unfold CcRosReleaseVacb CcRosMarkDirtyVacb
  rcases dirtyArg <;> rcases mappedArg <;> rcases dr <;> rcases mc with _ | n <;>
    simp_all

/-- Witness for the claim C3 theorem: a clean unmapped VACB with reference
count 2 released with `Valid = Dirty = Mapped = TRUE`. -/
theorem releaseVacb_claimC3_witness :
    1 ≤ (⟨0, false, false, false, 0, 2, 0⟩ : ROS_VACB).referenceCount ∧
    ((CcRosReleaseVacb ⟨0, [], [0]⟩ ⟨1048576, 0, [⟨0, false, false, false, 0, 2, 0⟩]⟩
        ⟨0, false, false, false, 0, 2, 0⟩ true true true).2.2.valid = true ∧
     (true = true → (⟨0, false, false, false, 0, 2, 0⟩ : ROS_VACB).dirty = false →
       (CcRosReleaseVacb ⟨0, [], [0]⟩ ⟨1048576, 0, [⟨0, false, false, false, 0, 2, 0⟩]⟩
          ⟨0, false, false, false, 0, 2, 0⟩ true true true).2.2.dirty = true ∧
       (CcRosReleaseVacb ⟨0, [], [0]⟩ ⟨1048576, 0, [⟨0, false, false, false, 0, 2, 0⟩]⟩
          ⟨0, false, false, false, 0, 2, 0⟩ true true true).1.dirtyList =
         (⟨0, [], [0]⟩ : CcGlobals).dirtyList ++
           [(⟨0, false, false, false, 0, 2, 0⟩ : ROS_VACB).fileOffset]) ∧
     (true = true →
       (CcRosReleaseVacb ⟨0, [], [0]⟩ ⟨1048576, 0, [⟨0, false, false, false, 0, 2, 0⟩]⟩
          ⟨0, false, false, false, 0, 2, 0⟩ true true true).2.2.mappedCount =
         (⟨0, false, false, false, 0, 2, 0⟩ : ROS_VACB).mappedCount + 1) ∧
     (CcRosReleaseVacb ⟨0, [], [0]⟩ ⟨1048576, 0, [⟨0, false, false, false, 0, 2, 0⟩]⟩
        ⟨0, false, false, false, 0, 2, 0⟩ true true true).2.2.referenceCount + 1 =
       (⟨0, false, false, false, 0, 2, 0⟩ : ROS_VACB).referenceCount
         + (if true = (true : Bool) ∧
              (⟨0, false, false, false, 0, 2, 0⟩ : ROS_VACB).dirty = false then 1 else 0)
         + (if true = (true : Bool) ∧
              (⟨0, false, false, false, 0, 2, 0⟩ : ROS_VACB).mappedCount = 0 then 1 else 0)) :=
  ⟨by decide,
   releaseVacb_claimC3 ⟨0, [], [0]⟩ ⟨1048576, 0, [⟨0, false, false, false, 0, 2, 0⟩]⟩
     ⟨0, false, false, false, 0, 2, 0⟩ true true true (by decide)⟩

/-! ## Claim C6 -/

/-- On any non-`NT_SUCCESS` flush status the scan hands back the dirty list
unchanged: the victim is not removed (only `CcRosFlushVacb`'s success path
unmarks it), so the restart from the head meets it again. -/
theorem flushFindVictim_not_success (c : Bool) (dirty : List FlushVacb) :
    ∀ (dirty2 : List FlushVacb) (v : FlushVacb),
      ¬ NT_SUCCESS v.flushStatus →
      flushFindVictim c dirty = some (v, dirty2) → dirty2 = dirty := by
  induction dirty with
  | nil =>
    intro dirty2 v _ hv
    simp [flushFindVictim] at hv
  | cons w rest ih =>
    intro dirty2 v hns hv
    unfold flushFindVictim at hv
    by_cases hsk : flushSkip c w = true
    · rw [if_pos hsk] at hv
      cases hrec : flushFindVictim c rest with
      | none => rw [hrec] at hv; exact absurd hv (by simp)
      | some pr =>
        rw [hrec] at hv
        have h1 : pr.1 = v ∧ w :: pr.2 = dirty2 := by
          cases pr with
          | mk w2 rest2 =>
            dsimp only at hv
            exact ⟨congrArg (fun o => (o.getD (v, dirty2)).1) hv,
                   congrArg (fun o => (o.getD (v, dirty2)).2) hv⟩
        have h2 : pr.2 = rest := by
          refine ih pr.2 pr.1 ?_ ?_
          · rw [h1.1]; exact hns
          · exact hrec
        rw [← h1.2, h2]
    · rw [if_neg hsk] at hv
      have h1 : w = v := congrArg (fun o => (o.getD (v, dirty2)).1) hv
      have h2 : (if NT_SUCCESS w.flushStatus then rest else w :: rest) = dirty2 :=
        congrArg (fun o => (o.getD (v, dirty2)).2) hv
      have hnsw : ¬ NT_SUCCESS w.flushStatus := by rw [h1]; exact hns
      rw [if_neg hnsw] at h2
      rw [← h2]

/-- On an `NT_SUCCESS` flush status the scan removes exactly the victim from
the dirty list: one entry shorter. -/
theorem flushFindVictim_success_length (c : Bool) (dirty : List FlushVacb) :
    ∀ (dirty2 : List FlushVacb) (v : FlushVacb),
      NT_SUCCESS v.flushStatus →
      flushFindVictim c dirty = some (v, dirty2) →
      dirty.length = dirty2.length + 1 := by
  induction dirty with
  | nil =>
    intro dirty2 v _ hv
    simp [flushFindVictim] at hv
  | cons w rest ih =>
    intro dirty2 v hs hv
    unfold flushFindVictim at hv
    by_cases hsk : flushSkip c w = true
    · rw [if_pos hsk] at hv
      cases hrec : flushFindVictim c rest with
      | none => rw [hrec] at hv; exact absurd hv (by simp)
      | some pr =>
        rw [hrec] at hv
        have h1 : pr.1 = v ∧ w :: pr.2 = dirty2 := by
          cases pr with
          | mk w2 rest2 =>
            dsimp only at hv
            exact ⟨congrArg (fun o => (o.getD (v, dirty2)).1) hv,
                   congrArg (fun o => (o.getD (v, dirty2)).2) hv⟩
        have h2 : rest.length = pr.2.length + 1 := by
          refine ih pr.2 pr.1 ?_ ?_
          · rw [h1.1]; exact hs
          · exact hrec
        rw [← h1.2]
        simp only [List.length_cons, h2]
    · rw [if_neg hsk] at hv
      have h1 : w = v := congrArg (fun o => (o.getD (v, dirty2)).1) hv
      have h2 : (if NT_SUCCESS w.flushStatus then rest else w :: rest) = dirty2 :=
        congrArg (fun o => (o.getD (v, dirty2)).2) hv
      have hsw : NT_SUCCESS w.flushStatus := by rw [h1]; exact hs
      rw [if_pos hsw] at h2
      rw [← h2]
      simp

/-- Claim C6, counterexample: a single dirty VACB whose write returns
`STATUS_END_OF_FILE` (so `CcRosFlushVacb` never takes it off the dirty
list), flushed with target 100.  The first pass credits `G / PAGE_SIZE`
pages and the restart from the list head flushes the very same VACB a
second time, crediting another `G / PAGE_SIZE` before the target hits
zero — the one VACB is credited `2 * (G / PAGE_SIZE)` pages, refuting
the claim's "credits exactly `G / PAGE_SIZE` pages". -/
theorem flushDirtyPages_claimC6_counterexample :
    CcRosFlushDirtyPages false 10 [⟨false, true, 1, STATUS_END_OF_FILE⟩] 100 =
      some ([⟨false, true, 1, STATUS_END_OF_FILE⟩], 0,
        2 * (VACB_MAPPING_GRANULARITY / PAGE_SIZE)) := by
  decide

/-- Claim C6, amended: while the target is positive, each pass of the
`CcRosFlushDirtyPages` loop scans the dirty list from its head for the
first VACB it may flush and then restarts from the head (view.c line 277).
The flush attempt credits exactly `G / PAGE_SIZE` pages to the freed count
and subtracts them from the target — jumping to zero rather than
underflowing — exactly when the status is a success, `STATUS_END_OF_FILE`
or `STATUS_MEDIA_WRITE_PROTECTED`, and credits nothing on any other error;
but only a successful flush removes the VACB from the dirty list (one entry
shorter), while on every non-success status — end-of-file and
write-protected included — the dirty list is returned unchanged, so the
restarted scan meets the same VACB again and such a VACB is re-credited on
every pass until the target reaches zero, and a persistently failing VACB
is retried rather than advanced past. -/
theorem flushDirtyPages_claimC6_amended (calledFromLazy : Bool)
    (fuel target count : Nat) (dirty dirty2 : List FlushVacb) (v : FlushVacb)
    (ht : 0 < target)
    (hv : flushFindVictim calledFromLazy dirty = some (v, dirty2)) :
    (NT_SUCCESS v.flushStatus ∨ v.flushStatus = STATUS_END_OF_FILE ∨
        v.flushStatus = STATUS_MEDIA_WRITE_PROTECTED →
      flushLoop calledFromLazy (fuel + 1) dirty target count =
        flushLoop calledFromLazy fuel dirty2
          (if target < VACB_MAPPING_GRANULARITY / PAGE_SIZE then 0
           else target - VACB_MAPPING_GRANULARITY / PAGE_SIZE)
          (count + VACB_MAPPING_GRANULARITY / PAGE_SIZE)) ∧
    (¬ NT_SUCCESS v.flushStatus ∧ v.flushStatus ≠ STATUS_END_OF_FILE ∧
        v.flushStatus ≠ STATUS_MEDIA_WRITE_PROTECTED →
      flushLoop calledFromLazy (fuel + 1) dirty target count =
        flushLoop calledFromLazy fuel dirty2 target count) ∧
    (NT_SUCCESS v.flushStatus → dirty.length = dirty2.length + 1) ∧
    (¬ NT_SUCCESS v.flushStatus → dirty2 = dirty) := by
  refine ⟨fun hgood => ?_, fun hbad => ?_,
    fun hs => flushFindVictim_success_length calledFromLazy dirty dirty2 v hs hv,
    fun hns => flushFindVictim_not_success calledFromLazy dirty dirty2 v hns hv⟩
  · have hnc : ¬ (¬ NT_SUCCESS v.flushStatus ∧ v.flushStatus ≠ STATUS_END_OF_FILE ∧
        v.flushStatus ≠ STATUS_MEDIA_WRITE_PROTECTED) := by
      rintro ⟨h1, h2, h3⟩
      rcases hgood with h | h | h
      · exact h1 h
      · exact h2 h
      · exact h3 h
    conv_lhs => rw [flushLoop]
    rw [if_neg (by omega : ¬ target = 0), hv]
    dsimp only
    rw [if_neg hnc]
  · conv_lhs => rw [flushLoop]
    rw [if_neg (by omega : ¬ target = 0), hv]
    dsimp only
    rw [if_pos hbad]

/-- Witness for the amended claim C6 theorem: the end-of-file VACB of the
counterexample scenario, found by the scan with the dirty list handed back
unchanged. -/
theorem flushDirtyPages_claimC6_amended_witness :
    0 < 100 ∧
    flushFindVictim false [⟨false, true, 1, STATUS_END_OF_FILE⟩] =
      some (⟨false, true, 1, STATUS_END_OF_FILE⟩,
            [⟨false, true, 1, STATUS_END_OF_FILE⟩]) ∧
    ((NT_SUCCESS (⟨false, true, 1, STATUS_END_OF_FILE⟩ : FlushVacb).flushStatus ∨
        (⟨false, true, 1, STATUS_END_OF_FILE⟩ : FlushVacb).flushStatus = STATUS_END_OF_FILE ∨
        (⟨false, true, 1, STATUS_END_OF_FILE⟩ : FlushVacb).flushStatus = STATUS_MEDIA_WRITE_PROTECTED →
      flushLoop false (3 + 1) [⟨false, true, 1, STATUS_END_OF_FILE⟩] 100 0 =
        flushLoop false 3 [⟨false, true, 1, STATUS_END_OF_FILE⟩]
          (if 100 < VACB_MAPPING_GRANULARITY / PAGE_SIZE then 0
           else 100 - VACB_MAPPING_GRANULARITY / PAGE_SIZE)
          (0 + VACB_MAPPING_GRANULARITY / PAGE_SIZE)) ∧
     (¬ NT_SUCCESS (⟨false, true, 1, STATUS_END_OF_FILE⟩ : FlushVacb).flushStatus ∧
        (⟨false, true, 1, STATUS_END_OF_FILE⟩ : FlushVacb).flushStatus ≠ STATUS_END_OF_FILE ∧
        (⟨false, true, 1, STATUS_END_OF_FILE⟩ : FlushVacb).flushStatus ≠ STATUS_MEDIA_WRITE_PROTECTED →
      flushLoop false (3 + 1) [⟨false, true, 1, STATUS_END_OF_FILE⟩] 100 0 =
        flushLoop false 3 [⟨false, true, 1, STATUS_END_OF_FILE⟩] 100 0) ∧
     (NT_SUCCESS (⟨false, true, 1, STATUS_END_OF_FILE⟩ : FlushVacb).flushStatus →
      ([⟨false, true, 1, STATUS_END_OF_FILE⟩] : List FlushVacb).length =
        ([⟨false, true, 1, STATUS_END_OF_FILE⟩] : List FlushVacb).length + 1) ∧
     (¬ NT_SUCCESS (⟨false, true, 1, STATUS_END_OF_FILE⟩ : FlushVacb).flushStatus →
      ([⟨false, true, 1, STATUS_END_OF_FILE⟩] : List FlushVacb) =
        [⟨false, true, 1, STATUS_END_OF_FILE⟩])) :=
  ⟨by decide, by decide,
   flushDirtyPages_claimC6_amended false 3 100 0
     [⟨false, true, 1, STATUS_END_OF_FILE⟩]
     [⟨false, true, 1, STATUS_END_OF_FILE⟩]
     ⟨false, true, 1, STATUS_END_OF_FILE⟩ (by decide) (by decide)⟩

/-! ## Claim C9 -/

/-- Claim C9: `CcRosMarkDirtyFile` is idempotent per offset — when the VACB
covering the offset is already dirty, the call leaves the entire state
untouched: the global dirty-page count, both global lists (hence the VACB's
dirty-list membership), the per-map dirty count, and the VACB itself
(including its reference count, which the lookup raises and the release
drops again) are all returned unchanged. -/
theorem markDirtyFile_claimC9 (g : CcGlobals) (m : ROS_SHARED_CACHE_MAP)
    (fileOffset : Nat) (v : ROS_VACB)
    (hfind : CcRosLookupVacbFind m.vacbs fileOffset = some v)
    (hdirty : v.dirty = true) :
    CcRosMarkDirtyFile g m fileOffset = .ok (g, m, v) := by
  obtain ⟨fo, vl, dr, po, mc, rc, pc⟩ := v
  unfold CcRosMarkDirtyFile
  rw [hfind]
  simp only at hdirty
  subst hdirty
  simp [CcRosReleaseVacb]

/-- Witness for the claim C9 theorem: a map holding one dirty VACB at offset
0, marked dirty again at offset 0. -/
theorem markDirtyFile_claimC9_witness :
    CcRosLookupVacbFind [⟨0, true, true, false, 0, 3, 0⟩] 0 =
      some ⟨0, true, true, false, 0, 3, 0⟩ ∧
    (⟨0, true, true, false, 0, 3, 0⟩ : ROS_VACB).dirty = true ∧
    CcRosMarkDirtyFile ⟨64, [0], [0]⟩ ⟨1048576, 64, [⟨0, true, true, false, 0, 3, 0⟩]⟩ 0 =
      .ok (⟨64, [0], [0]⟩, ⟨1048576, 64, [⟨0, true, true, false, 0, 3, 0⟩]⟩,
           ⟨0, true, true, false, 0, 3, 0⟩) :=
  ⟨by decide, by decide,
   markDirtyFile_claimC9 ⟨64, [0], [0]⟩ ⟨1048576, 64, [⟨0, true, true, false, 0, 3, 0⟩]⟩ 0
     ⟨0, true, true, false, 0, 3, 0⟩ (by decide) (by decide)⟩

/-! ## Claim C10 -/

/-- Claim C10: for a `G`-aligned offset at or beyond the section size that no
existing VACB covers, `CcRosGetVacb` fails with `STATUS_INVALID_PARAMETER`,
returns no VACB, and leaves the map's VACB list and the global lists exactly
as they were. -/
theorem getVacb_claimC10 (g : CcGlobals) (m : ROS_SHARED_CACHE_MAP) (fileOffset : Nat)
    (_halign : fileOffset % VACB_MAPPING_GRANULARITY = 0)
    (hbeyond : m.sectionSize ≤ fileOffset)
    (hmiss : CcRosLookupVacbFind m.vacbs fileOffset = none) :
    CcRosGetVacb g m fileOffset = (STATUS_INVALID_PARAMETER, g, m, none) := by
  unfold CcRosGetVacb CcRosCreateVacb
  rw [hmiss, if_pos hbeyond]

/-- Witness for the claim C10 theorem: an empty map of section size `G`
asked for offset `G`. -/
theorem getVacb_claimC10_witness :
    262144 % VACB_MAPPING_GRANULARITY = 0 ∧
    (⟨262144, 0, []⟩ : ROS_SHARED_CACHE_MAP).sectionSize ≤ 262144 ∧
    CcRosLookupVacbFind ([] : List ROS_VACB) 262144 = none ∧
    CcRosGetVacb ⟨0, [], []⟩ ⟨262144, 0, []⟩ 262144 =
      (STATUS_INVALID_PARAMETER, ⟨0, [], []⟩, ⟨262144, 0, []⟩, none) :=
  ⟨by decide, by decide, by decide,
   getVacb_claimC10 ⟨0, [], []⟩ ⟨262144, 0, []⟩ 262144 (by decide) (by decide) (by decide)⟩

/-- Stamping a popped slot (`TypeInfo |= Entry->Type & GDI_ENTRY_REUSE_MASK`,
gdiobj.c line 461) preserves the slot's reuse counter, for object types below
`2 ^ 24` (all `GDI_OBJECT_TYPE_*` constants are). -/
theorem entryReuseCount_stamp (objectType T : Nat) (hot : objectType < 16777216) :
    entryReuseCount (typeInfoOfObjectType objectType + entryReuseCount T * 256) =
      entryReuseCount T := by
  unfold entryReuseCount typeInfoOfObjectType andEntryBaseTypeMask
  have hu : objectType / 65536 ≤ 255 := by omega
  have hr : T / 256 % 256 ≤ 255 := Nat.le_of_lt_succ (Nat.mod_lt _ (by norm_num))
  generalize objectType / 65536 = u at hu
  generalize T / 256 % 256 = r at hr ⊢
  have h1 : u % 32 * 65536 + u + r * 256 = 256 * (u % 32 * 256 + r) + u := by ring
  rw [h1, Nat.mul_add_div (by norm_num), Nat.div_eq_of_lt (by omega), Nat.add_zero]
  omega

/-! ## Claim C5 -/

/-- The handle built from a valid slot index splits back into the index (low
16 bits) and the stamped `TypeInfo` (upper 16 bits). -/
theorem mkHandle_split (index typeInfo : Nat) (hidx : index < 65536) :
    mkHandle index typeInfo % 65536 = index ∧
    mkHandle index typeInfo / 65536 = typeInfo % 65536 := by
  unfold mkHandle
  omega

/-- Claim C5: whenever `GDIOBJ_AllocObjWithHandle` succeeds, the returned
body holds exactly one exclusive lock owned by the calling thread and no
share locks, and its stored handle is the 32-bit value whose lower 16 bits
are the allocated slot's index and whose upper 16 bits are (the low 16 bits
of) that slot's `Type` field at allocation time, the slot's prior reuse
counter preserved in it.  (The hypotheses record two table invariants the
code relies on: the free-list head is a valid index, and the object type is
one of the `GDI_OBJECT_TYPE_*` constants, all below `2 ^ 24`.) -/
theorem allocObj_claimC5 (st : GdiState) (curPid curTid objectType : Nat)
    (o : BASEOBJECT) (st2 : GdiState)
    (hff : st.firstFree < GDI_HANDLE_COUNT)
    (hot : objectType < 16777216)
    (halloc : GDIOBJ_AllocObjWithHandle st curPid curTid objectType = (.success o, st2)) :
    o.cExclusiveLock = 1 ∧ o.Tid = curTid ∧ o.ulShareCount = 0 ∧
    ∃ index handle,
      index < GDI_HANDLE_COUNT ∧
      o.hHmgr = some handle ∧
      handle % 65536 = index ∧
      handle / 65536 = (st2.entries index).typeWord % 65536 ∧
      entryReuseCount (st2.entries index).typeWord =
        entryReuseCount ((st.entries index).typeWord) := by
  unfold GDIOBJ_AllocObjWithHandle InterlockedPopFreeEntry at halloc
  dsimp only at halloc
  repeat' (first | dsimp only at halloc | split at halloc)
  all_goals try omega
  all_goals try exact AllocOutcome.noConfusion (congrArg Prod.fst halloc)
  all_goals simp only [Prod.mk.injEq, AllocOutcome.success.injEq] at halloc
  all_goals obtain ⟨ho, hst⟩ := halloc
  all_goals subst ho hst
  -- bump-path success leaf (slot taken from the FirstUnused frontier)
  · have hN : GDI_HANDLE_COUNT = 16384 := rfl
    refine ⟨rfl, rfl, rfl, st.firstUnused, _, by omega, rfl, ?_, ?_, ?_⟩
    · exact (mkHandle_split _ _ (by omega)).1
    · simp only [setEntry]
      simp
      exact (mkHandle_split _ _ (by omega)).2
    · simp only [setEntry]
      simp
      exact entryReuseCount_stamp objectType _ hot
  -- free-list success leaves (the popped head's KernelData holding a next
  -- index, or the defensive zero fallback)
  all_goals
    have hN : GDI_HANDLE_COUNT = 16384 := rfl
    refine ⟨rfl, rfl, rfl, st.firstFree, _, by omega, rfl, ?_, ?_, ?_⟩
    · exact (mkHandle_split _ _ (by omega)).1
    · simp only [setEntry]
      simp
      exact (mkHandle_split _ _ (by omega)).2
    · simp only [setEntry]
      simp
      exact entryReuseCount_stamp objectType _ hot

/-- Witness for the claim C5 theorem: allocating a BRUSH (`0x00100000`) in a
table whose slot 10 carries reuse counter 3. -/
def c5State : GdiState := ⟨fun _ => ⟨.null, 0, 768, 0⟩, 0, 10, 0⟩

/-- The allocation outcome on `c5State`, projected for the witness. -/
def c5Result : AllocOutcome × GdiState := GDIOBJ_AllocObjWithHandle c5State 4 7 1048576

/-- The body returned by the witness allocation. -/
def c5Obj : BASEOBJECT :=
  match c5Result.1 with
  | .success o => o
  | _ => ⟨none, 0, 0, 0, false⟩

theorem allocObj_claimC5_witness :
    c5State.firstFree < GDI_HANDLE_COUNT ∧
    1048576 < 16777216 ∧
    (c5Obj.cExclusiveLock = 1 ∧ c5Obj.Tid = 7 ∧ c5Obj.ulShareCount = 0 ∧
     ∃ index handle,
       index < GDI_HANDLE_COUNT ∧
       c5Obj.hHmgr = some handle ∧
       handle % 65536 = index ∧
       handle / 65536 = (c5Result.2.entries index).typeWord % 65536 ∧
       entryReuseCount (c5Result.2.entries index).typeWord =
         entryReuseCount ((c5State.entries index).typeWord)) :=
  ⟨by decide, by decide,
   allocObj_claimC5 c5State 4 7 1048576 c5Obj c5Result.2 (by decide) (by decide) rfl⟩

/-! ## Claim C7 -/

/-- Claim C7: freeing a valid, owned handle whose body is share-locked does
not free anything — the body merely gains `BASEFLAG_READY_TO_DIE`, the
slot's owner word is restored, `FALSE` is returned, and the slot's `Type`
field, the free list, every other slot and the per-process handle count are
unchanged. -/
theorem freeObj_claimC7 (cleanup : BASEOBJECT → Bool) (st : GdiState)
    (curPid curTid hObj expectedTypeArg : Nat) (o : BASEOBJECT)
    (hstock : GDI_HANDLE_IS_STOCKOBJ hObj = false)
    (hexp : expectedTypeArg % 2147483648 = 0 ∨
            expectedTypeArg % 2147483648 = GDI_HANDLE_GET_TYPE hObj)
    (htnz : GDI_HANDLE_GET_TYPE hObj ≠ 0)
    (howner : (st.entries (GDI_HANDLE_GET_INDEX hObj)).ProcessId = curPid)
    (hkd : (st.entries (GDI_HANDLE_GET_INDEX hObj)).KernelData = .obj o)
    (hupper : entryTypeShifted (st.entries (GDI_HANDLE_GET_INDEX hObj)).typeWord =
              GDI_HANDLE_GET_UPPER hObj)
    (hbase : andEntryBaseTypeMask (st.entries (GDI_HANDLE_GET_INDEX hObj)).typeWord =
             andEntryBaseTypeMask (GDI_HANDLE_GET_UPPER hObj))
    (hshare : o.ulShareCount ≠ 0) :
    (GDIOBJ_FreeObjByHandle cleanup st curPid curTid hObj expectedTypeArg).1 = .ret false ∧
    ((GDIOBJ_FreeObjByHandle cleanup st curPid curTid hObj expectedTypeArg).2.entries
        (GDI_HANDLE_GET_INDEX hObj)).typeWord =
      (st.entries (GDI_HANDLE_GET_INDEX hObj)).typeWord ∧
    ((GDIOBJ_FreeObjByHandle cleanup st curPid curTid hObj expectedTypeArg).2.entries
        (GDI_HANDLE_GET_INDEX hObj)).ProcessId =
      (st.entries (GDI_HANDLE_GET_INDEX hObj)).ProcessId ∧
    ((GDIOBJ_FreeObjByHandle cleanup st curPid curTid hObj expectedTypeArg).2.entries
        (GDI_HANDLE_GET_INDEX hObj)).KernelData = .obj { o with readyToDie := true } ∧
    (GDIOBJ_FreeObjByHandle cleanup st curPid curTid hObj expectedTypeArg).2.gdiHandleCount =
      st.gdiHandleCount ∧
    (GDIOBJ_FreeObjByHandle cleanup st curPid curTid hObj expectedTypeArg).2.firstFree =
      st.firstFree ∧
    ∀ j, j ≠ GDI_HANDLE_GET_INDEX hObj →
      (GDIOBJ_FreeObjByHandle cleanup st curPid curTid hObj expectedTypeArg).2.entries j =
        st.entries j := by
  have hnotfree : ¬ ((o.cExclusiveLock = 0 ∨ o.Tid = curTid) ∧ o.ulShareCount = 0) :=
    fun hc => hshare hc.2
  have hcond : ¬ ((expectedTypeArg % 2147483648 ≠ 0 ∧
      GDI_HANDLE_GET_TYPE hObj ≠ expectedTypeArg % 2147483648) ∨
      GDI_HANDLE_GET_TYPE hObj = 0) := by
    rcases hexp with h | h
    · rintro (⟨hne, _⟩ | hz)
      · exact hne h
      · exact htnz hz
    · rintro (⟨_, hne⟩ | hz)
      · exact hne h.symm
      · exact htnz hz
  unfold GDIOBJ_FreeObjByHandle
  rw [hstock]
  dsimp only
  rw [if_neg hcond, if_pos howner, hkd]
  dsimp only
  have hmatch : entryTypeShifted (st.entries (GDI_HANDLE_GET_INDEX hObj)).typeWord =
      GDI_HANDLE_GET_UPPER hObj ∧
      andEntryBaseTypeMask (st.entries (GDI_HANDLE_GET_INDEX hObj)).typeWord =
        andEntryBaseTypeMask (GDI_HANDLE_GET_UPPER hObj) := ⟨hupper, hbase⟩
  rw [if_pos hmatch, if_neg hnotfree, if_pos hshare]
  simp only [setEntry]
  refine ⟨rfl, ?_, ?_, ?_, rfl, rfl, ?_⟩
  · simp
  · simp [howner]
  · simp
  · intro j hj
    simp [hj]

/-- Witness body for the claim C7 theorem: a BRUSH with two share locks. -/
def c7Obj : BASEOBJECT := ⟨some 1048586, 2, 0, 7, false⟩

/-- Witness state for the claim C7 theorem: slot 10 holds `c7Obj` with
`Type = 0x00100010`, owned by process 4. -/
def c7State : GdiState := ⟨fun _ => ⟨.obj c7Obj, 4, 1048592, 0⟩, 0, 11, 5⟩

theorem freeObj_claimC7_witness :
    GDI_HANDLE_IS_STOCKOBJ 1048586 = false ∧
    c7Obj.ulShareCount ≠ 0 ∧
    ((GDIOBJ_FreeObjByHandle (fun _ => true) c7State 4 7 1048586 1048576).1 = .ret false ∧
     ((GDIOBJ_FreeObjByHandle (fun _ => true) c7State 4 7 1048586 1048576).2.entries
         (GDI_HANDLE_GET_INDEX 1048586)).typeWord =
       (c7State.entries (GDI_HANDLE_GET_INDEX 1048586)).typeWord ∧
     ((GDIOBJ_FreeObjByHandle (fun _ => true) c7State 4 7 1048586 1048576).2.entries
         (GDI_HANDLE_GET_INDEX 1048586)).ProcessId =
       (c7State.entries (GDI_HANDLE_GET_INDEX 1048586)).ProcessId ∧
     ((GDIOBJ_FreeObjByHandle (fun _ => true) c7State 4 7 1048586 1048576).2.entries
         (GDI_HANDLE_GET_INDEX 1048586)).KernelData =
       .obj { c7Obj with readyToDie := true } ∧
     (GDIOBJ_FreeObjByHandle (fun _ => true) c7State 4 7 1048586 1048576).2.gdiHandleCount =
       c7State.gdiHandleCount ∧
     (GDIOBJ_FreeObjByHandle (fun _ => true) c7State 4 7 1048586 1048576).2.firstFree =
       c7State.firstFree ∧
     ∀ j, j ≠ GDI_HANDLE_GET_INDEX 1048586 →
       (GDIOBJ_FreeObjByHandle (fun _ => true) c7State 4 7 1048586 1048576).2.entries j =
         c7State.entries j) :=
  ⟨by decide, by decide,
   freeObj_claimC7 (fun _ => true) c7State 4 7 1048586 1048576 c7Obj (by decide) (by decide)
     (by decide) (by decide) (by decide) (by decide) (by decide) (by decide)⟩

/-! ## Claim C4 -/

/-- The entry `Type` update of the freed path (`Entry->Type = (Entry->Type +
GDI_ENTRY_REUSE_INC) & ~GDI_ENTRY_BASETYPE_MASK`, gdiobj.c line 604)
increments the 8-bit reuse counter by one modulo `2 ^ 8` and clears the
base-type bits. -/
theorem entryReuseCount_free (T : Nat) :
    entryReuseCount (clearEntryBaseType ((T + GDI_ENTRY_REUSE_INC) % 4294967296)) =
      (entryReuseCount T + 1) % 256 ∧
    andEntryBaseTypeMask (clearEntryBaseType ((T + GDI_ENTRY_REUSE_INC) % 4294967296)) = 0 := by
  unfold entryReuseCount clearEntryBaseType andEntryBaseTypeMask GDI_ENTRY_REUSE_INC
  omega

/-- A handle minted for slot `idx` from a `Type` snapshot `t0` whose reuse
counter differs from the slot's current reuse counter fails
`GDIOBJ_ValidateHandle` for every expected type and every process: its upper
16 bits cannot match the slot's `Type` shifted left by 16. -/
theorem validateHandle_reuse_mismatch (tbl : GdiTable) (idx t0 pid2 et2 : Nat)
    (hidx : idx < GDI_HANDLE_COUNT)
    (hne : entryReuseCount t0 ≠ entryReuseCount (tbl idx).typeWord) :
    GDIOBJ_ValidateHandle tbl pid2 (mkHandle idx t0) et2 = false := by
  unfold GDIOBJ_ValidateHandle
  have hgi : GDI_HANDLE_GET_INDEX (mkHandle idx t0) = idx := by
    unfold GDI_HANDLE_GET_INDEX mkHandle GDI_HANDLE_COUNT at *
    omega
  rw [hgi]
  rw [if_neg]
  rintro ⟨-, hB⟩
  unfold entryTypeShifted GDI_HANDLE_GET_UPPER mkHandle entryReuseCount GDI_HANDLE_COUNT at *
  omega

/-- Claim C4, amended: every freeing execution of `GDIOBJ_FreeObjByHandle`
increments the slot's reuse counter by one modulo `2 ^ 8` and clears the
base-type bits, and afterwards a handle minted by an earlier allocation of
that slot fails `GDIOBJ_ValidateHandle` whenever the reuse counter packed in
its upper bits differs from the slot's new counter value — in particular the
handle of the allocation just freed always fails.  (The unamended universal
claim fails: the counter is 8 bits wide, so a handle minted exactly a
multiple of `2 ^ 8` frees earlier carries the same counter again.) -/
theorem freeObj_claimC4_amended (cleanup : BASEOBJECT → Bool) (st : GdiState)
    (curPid curTid hObj expectedTypeArg : Nat) (o : BASEOBJECT)
    (hstock : GDI_HANDLE_IS_STOCKOBJ hObj = false)
    (hexp : expectedTypeArg % 2147483648 = 0 ∨
            expectedTypeArg % 2147483648 = GDI_HANDLE_GET_TYPE hObj)
    (htnz : GDI_HANDLE_GET_TYPE hObj ≠ 0)
    (howner : (st.entries (GDI_HANDLE_GET_INDEX hObj)).ProcessId = curPid)
    (hkd : (st.entries (GDI_HANDLE_GET_INDEX hObj)).KernelData = .obj o)
    (hupper : entryTypeShifted (st.entries (GDI_HANDLE_GET_INDEX hObj)).typeWord =
              GDI_HANDLE_GET_UPPER hObj)
    (hbase : andEntryBaseTypeMask (st.entries (GDI_HANDLE_GET_INDEX hObj)).typeWord =
             andEntryBaseTypeMask (GDI_HANDLE_GET_UPPER hObj))
    (hlock : o.cExclusiveLock = 0 ∨ o.Tid = curTid)
    (hshare0 : o.ulShareCount = 0) :
    entryReuseCount
        ((GDIOBJ_FreeObjByHandle cleanup st curPid curTid hObj expectedTypeArg).2.entries
          (GDI_HANDLE_GET_INDEX hObj)).typeWord =
      (entryReuseCount (st.entries (GDI_HANDLE_GET_INDEX hObj)).typeWord + 1) % 256 ∧
    andEntryBaseTypeMask
        ((GDIOBJ_FreeObjByHandle cleanup st curPid curTid hObj expectedTypeArg).2.entries
          (GDI_HANDLE_GET_INDEX hObj)).typeWord = 0 ∧
    (∀ t0 pid2 et2,
      entryReuseCount t0 ≠
        entryReuseCount
          ((GDIOBJ_FreeObjByHandle cleanup st curPid curTid hObj expectedTypeArg).2.entries
            (GDI_HANDLE_GET_INDEX hObj)).typeWord →
      GDIOBJ_ValidateHandle
        (GDIOBJ_FreeObjByHandle cleanup st curPid curTid hObj expectedTypeArg).2.entries
        pid2 (mkHandle (GDI_HANDLE_GET_INDEX hObj) t0) et2 = false) ∧
    (∀ pid2 et2,
      GDIOBJ_ValidateHandle
        (GDIOBJ_FreeObjByHandle cleanup st curPid curTid hObj expectedTypeArg).2.entries
        pid2
        (mkHandle (GDI_HANDLE_GET_INDEX hObj)
          (st.entries (GDI_HANDLE_GET_INDEX hObj)).typeWord) et2 = false) := by
  have hidx : GDI_HANDLE_GET_INDEX hObj < GDI_HANDLE_COUNT := by
    unfold GDI_HANDLE_GET_INDEX GDI_HANDLE_COUNT
    omega
  have hfree : (o.cExclusiveLock = 0 ∨ o.Tid = curTid) ∧ o.ulShareCount = 0 :=
    ⟨hlock, hshare0⟩
  have hcond : ¬ ((expectedTypeArg % 2147483648 ≠ 0 ∧
      GDI_HANDLE_GET_TYPE hObj ≠ expectedTypeArg % 2147483648) ∨
      GDI_HANDLE_GET_TYPE hObj = 0) := by
    rcases hexp with h | h
    · rintro (⟨hne, -⟩ | hz)
      · exact hne h
      · exact htnz hz
    · rintro (⟨-, hne⟩ | hz)
      · exact hne h.symm
      · exact htnz hz
  have hmatch : entryTypeShifted (st.entries (GDI_HANDLE_GET_INDEX hObj)).typeWord =
      GDI_HANDLE_GET_UPPER hObj ∧
      andEntryBaseTypeMask (st.entries (GDI_HANDLE_GET_INDEX hObj)).typeWord =
        andEntryBaseTypeMask (GDI_HANDLE_GET_UPPER hObj) := ⟨hupper, hbase⟩
  unfold GDIOBJ_FreeObjByHandle
  rw [hstock]
  dsimp only
  rw [if_neg hcond, if_pos howner, hkd]
  dsimp only
  rw [if_pos hmatch, if_pos hfree]
  refine ⟨?_, ?_, ?_, ?_⟩
  · simp [InterlockedPushFreeEntry, setEntry]
    exact (entryReuseCount_free _).1
  · simp [InterlockedPushFreeEntry, setEntry]
    exact (entryReuseCount_free _).2
  · intro t0 pid2 et2 hne
    exact validateHandle_reuse_mismatch _ _ t0 pid2 et2 hidx hne
  · intro pid2 et2
    apply validateHandle_reuse_mismatch _ _ _ pid2 et2 hidx
    simp [InterlockedPushFreeEntry, setEntry]
    have h1 := (entryReuseCount_free (st.entries (GDI_HANDLE_GET_INDEX hObj)).typeWord).1
    have h2 : entryReuseCount (st.entries (GDI_HANDLE_GET_INDEX hObj)).typeWord < 256 := by
      unfold entryReuseCount
      exact Nat.mod_lt _ (by norm_num)
    omega

/-- Witness body for the amended claim C4 theorem: a BRUSH exclusively
locked once by the calling thread, share count zero. -/
def c4wObj : BASEOBJECT := ⟨some 1048586, 0, 1, 7, false⟩

/-- Witness state for the amended claim C4 theorem: slot 10 holds `c4wObj`
with `Type = 0x00100010` (BRUSH, reuse counter 0), owned by process 4. -/
def c4wState : GdiState := ⟨fun _ => ⟨.obj c4wObj, 4, 1048592, 0⟩, 0, 11, 5⟩

theorem freeObj_claimC4_amended_witness :
    GDI_HANDLE_IS_STOCKOBJ 1048586 = false ∧
    (c4wObj.cExclusiveLock = 0 ∨ c4wObj.Tid = 7) ∧
    c4wObj.ulShareCount = 0 ∧
    (entryReuseCount
        ((GDIOBJ_FreeObjByHandle (fun _ => true) c4wState 4 7 1048586 1048576).2.entries
          (GDI_HANDLE_GET_INDEX 1048586)).typeWord =
      (entryReuseCount (c4wState.entries (GDI_HANDLE_GET_INDEX 1048586)).typeWord + 1) % 256 ∧
     andEntryBaseTypeMask
        ((GDIOBJ_FreeObjByHandle (fun _ => true) c4wState 4 7 1048586 1048576).2.entries
          (GDI_HANDLE_GET_INDEX 1048586)).typeWord = 0 ∧
     (∀ t0 pid2 et2,
       entryReuseCount t0 ≠
         entryReuseCount
           ((GDIOBJ_FreeObjByHandle (fun _ => true) c4wState 4 7 1048586 1048576).2.entries
             (GDI_HANDLE_GET_INDEX 1048586)).typeWord →
       GDIOBJ_ValidateHandle
         (GDIOBJ_FreeObjByHandle (fun _ => true) c4wState 4 7 1048586 1048576).2.entries
         pid2 (mkHandle (GDI_HANDLE_GET_INDEX 1048586) t0) et2 = false) ∧
     (∀ pid2 et2,
       GDIOBJ_ValidateHandle
         (GDIOBJ_FreeObjByHandle (fun _ => true) c4wState 4 7 1048586 1048576).2.entries
         pid2
         (mkHandle (GDI_HANDLE_GET_INDEX 1048586)
           (c4wState.entries (GDI_HANDLE_GET_INDEX 1048586)).typeWord) et2 = false)) :=
  ⟨by decide, by decide, by decide,
   freeObj_claimC4_amended (fun _ => true) c4wState 4 7 1048586 1048576 c4wObj
     (by decide) (by decide) (by decide) (by decide) (by decide) (by decide) (by decide)
     (by decide) (by decide)⟩

/-- An empty handle table poised for its first allocation (free list empty,
`FirstUnused` at the reserved frontier). -/
def c4InitState : GdiState := ⟨fun _ => ⟨.null, 0, 0, 0⟩, 0, 10, 0⟩

/-- Allocate a BRUSH (`0x00100000`) as process 4 / thread 7; return the new
state and the minted handle. -/
def c4AllocStep (st : GdiState) : GdiState × Nat :=
  match GDIOBJ_AllocObjWithHandle st 4 7 1048576 with
  | (.success o, st1) => (st1, o.hHmgr.getD 0)
  | (_, st1) => (st1, 0)

/-- One free-then-reallocate cycle of the live handle: free it (expected
type `DONTCARE`), then allocate a BRUSH again — the slot just pushed on the
free list is popped back. -/
def c4Cycle (p : GdiState × Nat) : GdiState × Nat :=
  c4AllocStep (GDIOBJ_FreeObjByHandle (fun _ => true) p.1 4 7 p.2 0).2

/-- The state and live handle after the initial allocation and `n`
free-then-reallocate cycles of slot 10. -/
def c4Iter : Nat → GdiState × Nat
  | 0 => c4AllocStep c4InitState
  | n + 1 => c4Cycle (c4Iter n)

/-- The final free of slot 10 — its 256th free overall. -/
def c4FinalFree : FreeOutcome × GdiState :=
  GDIOBJ_FreeObjByHandle (fun _ => true) (c4Iter 255).1 4 7 (c4Iter 255).2 0

/-- The handle that the `n`-th allocation of slot 10 mints in the claim C4
trace: index 10, BRUSH type byte, reuse counter `r` in the upper bits. -/
def c4H (r : Nat) : Nat := 10 + (16 + 256 * r) * 65536

/-- Slot 10's entry while allocation `r` of the claim C4 trace is live. -/
def c4Entry (r : Nat) : GDI_TABLE_ENTRY :=
  ⟨.obj ⟨some (c4H r), 0, 1, 7, false⟩, 4, 1048592 + 256 * r, 0⟩

/-- The simulation invariant of the claim C4 trace: the state carries the
live entry of round `r` in slot 10, an empty free list, the untouched
`FirstUnused` frontier, and one live handle. -/
def c4Agrees (st : GdiState) (r : Nat) : Prop :=
  st.entries 10 = c4Entry r ∧ st.firstFree = 0 ∧ st.firstUnused = 11 ∧
  st.gdiHandleCount = 1

/-- One free-then-reallocate cycle of the claim C4 trace preserves the
simulation invariant, bumping the reuse counter by one. -/
theorem c4Cycle_step (st : GdiState) (r : Nat) (hr : r ≤ 254) (h : c4Agrees st r) :
    c4Agrees (c4Cycle (st, c4H r)).1 (r + 1) ∧ (c4Cycle (st, c4H r)).2 = c4H (r + 1) := by
  obtain ⟨he, hf, hu, hc⟩ := h
  have h1 : GDI_HANDLE_IS_STOCKOBJ (c4H r) = false := by
    unfold GDI_HANDLE_IS_STOCKOBJ c4H
    rw [decide_eq_false_iff_not]
    omega
  have h2 : GDI_HANDLE_GET_TYPE (c4H r) = 1048576 := by
    unfold GDI_HANDLE_GET_TYPE c4H
    omega
  have h3 : GDI_HANDLE_GET_INDEX (c4H r) = 10 := by
    unfold GDI_HANDLE_GET_INDEX GDI_HANDLE_COUNT c4H
    omega
  have hcond : ¬ ((0 % 2147483648 ≠ 0 ∧
      GDI_HANDLE_GET_TYPE (c4H r) ≠ 0 % 2147483648) ∨
      GDI_HANDLE_GET_TYPE (c4H r) = 0) := by
    simp [h2]
  have h4 : entryTypeShifted (1048592 + 256 * r) = GDI_HANDLE_GET_UPPER (c4H r) := by
    unfold entryTypeShifted GDI_HANDLE_GET_UPPER c4H
    omega
  have h5 : andEntryBaseTypeMask (1048592 + 256 * r) =
      andEntryBaseTypeMask (GDI_HANDLE_GET_UPPER (c4H r)) := by
    unfold andEntryBaseTypeMask GDI_HANDLE_GET_UPPER c4H
    omega
  have h6 : clearEntryBaseType ((1048592 + 256 * r + GDI_ENTRY_REUSE_INC) % 4294967296) =
      16 + 256 * (r + 1) := by
    unfold clearEntryBaseType GDI_ENTRY_REUSE_INC
    omega
  have h9 : mkHandle 10 (1048592 + 256 * (r + 1)) = c4H (r + 1) := by
    unfold mkHandle c4H
    omega
  have h10 : typeInfoOfObjectType 1048576 +
      entryReuseCount (16 + 256 * (r + 1)) * 256 = 1048592 + 256 * (r + 1) := by
    unfold typeInfoOfObjectType andEntryBaseTypeMask entryReuseCount
    omega
  unfold c4Cycle c4AllocStep
  unfold GDIOBJ_FreeObjByHandle
  rw [h1]
  dsimp only
  rw [if_neg hcond, h3, he]
  simp only [c4Entry, h4, h5, h6]
  simp only [Bool.false_eq_true, if_false, if_true, and_self, true_and, and_true, or_true,
    ite_true, ite_false, if_neg (by omega : ¬ (0 : Nat) ≠ 0),
    if_neg (by omega : ¬ (4 : Nat) = 4 + 1), if_pos (by omega : (4 : Nat) = 4)]
  simp only [InterlockedPushFreeEntry, setEntry]
  simp only [GDIOBJ_AllocObjWithHandle, InterlockedPopFreeEntry]
  simp only [hf, hu, hc, h10, h9]
  simp [c4Agrees, c4Entry, setEntry]
  exact ⟨⟨by rw [h10, h9], h10⟩, by rw [h10, h9]⟩

/-- The claim C4 trace maintains the simulation invariant: after `n` cycles
the live handle carries reuse counter `n`. -/
theorem c4Iter_spec : ∀ n, n ≤ 255 → c4Agrees (c4Iter n).1 n ∧ (c4Iter n).2 = c4H n := by
  intro n
  induction n with
  | zero =>
    intro _
    refine ⟨⟨?_, ?_, ?_, ?_⟩, ?_⟩ <;> decide
  | succ k ih =>
    intro hk
    obtain ⟨ha, hh⟩ := ih (by omega)
    have hpair : c4Iter (k + 1) = c4Cycle ((c4Iter k).1, (c4Iter k).2) := rfl
    rw [hpair, hh]
    exact c4Cycle_step (c4Iter k).1 k (by omega) ha

/-- The final free of the claim C4 trace: it frees the slot (returning
`TRUE`, base-type bits cleared), wraps the 8-bit reuse counter back to 0 —
and the stale handle `0x0010000A` from the trace's first allocation then
passes validation. -/
theorem c4Final_spec (st : GdiState) (h : c4Agrees st 255) :
    (GDIOBJ_FreeObjByHandle (fun _ => true) st 4 7 (c4H 255) 0).1 = .ret true ∧
    andEntryBaseTypeMask
      (((GDIOBJ_FreeObjByHandle (fun _ => true) st 4 7 (c4H 255) 0).2.entries 10).typeWord) = 0 ∧
    GDIOBJ_ValidateHandle
      (GDIOBJ_FreeObjByHandle (fun _ => true) st 4 7 (c4H 255) 0).2.entries
      4 1048586 1048576 = true := by
  obtain ⟨he, hf, hu, hc⟩ := h
  have h1 : GDI_HANDLE_IS_STOCKOBJ (c4H 255) = false := by decide
  have hcond : ¬ ((0 % 2147483648 ≠ 0 ∧
      GDI_HANDLE_GET_TYPE (c4H 255) ≠ 0 % 2147483648) ∨
      GDI_HANDLE_GET_TYPE (c4H 255) = 0) := by decide
  have h3 : GDI_HANDLE_GET_INDEX (c4H 255) = 10 := by decide
  have h4 : entryTypeShifted (1048592 + 256 * 255) = GDI_HANDLE_GET_UPPER (c4H 255) := by
    decide
  have h5 : andEntryBaseTypeMask (1048592 + 256 * 255) =
      andEntryBaseTypeMask (GDI_HANDLE_GET_UPPER (c4H 255)) := by decide
  have h6 : clearEntryBaseType ((1048592 + 256 * 255 + GDI_ENTRY_REUSE_INC) % 4294967296) =
      16 := by decide
  unfold GDIOBJ_FreeObjByHandle
  rw [h1]
  dsimp only
  rw [if_neg hcond, h3, he]
  simp only [c4Entry, h4, h5, h6]
  simp only [Bool.false_eq_true, if_false, if_true, and_self, true_and, and_true, or_true,
    ite_true, ite_false]
  simp only [InterlockedPushFreeEntry, setEntry, hf]
  simp only [ite_true, if_true]
  refine ⟨by norm_num [andEntryBaseTypeMask], ?_⟩
  have hgi : GDI_HANDLE_GET_INDEX 1048586 = 10 := by decide
  unfold GDIOBJ_ValidateHandle
  rw [hgi]
  dsimp only
  simp [GDI_HANDLE_GET_TYPE, entryTypeShifted, GDI_HANDLE_GET_UPPER, ownerOfProcessWord]

/-- Claim C4, counterexample.  The first allocation of slot 10 mints the
handle `0x0010000A`.  After 255 free-then-reallocate cycles and one final
free — 256 freeing executions of `GDIOBJ_FreeObjByHandle` in all, the last
of which does free the slot (it returns `TRUE` and leaves the base-type
bits cleared) — the 8-bit reuse counter has wrapped around to its original
value, and the stale original handle passes `GDIOBJ_ValidateHandle` again:
"every handle minted by an earlier allocation of that slot fails
validate_handle" is false. -/
theorem freeObj_claimC4_counterexample :
    (c4AllocStep c4InitState).2 = 1048586 ∧
    c4FinalFree.1 = .ret true ∧
    andEntryBaseTypeMask ((c4FinalFree.2.entries 10).typeWord) = 0 ∧
    GDIOBJ_ValidateHandle c4FinalFree.2.entries 4 1048586 1048576 = true := by
  obtain ⟨ha, hh⟩ := c4Iter_spec 255 (le_refl _)
  have hff : c4FinalFree =
      GDIOBJ_FreeObjByHandle (fun _ => true) (c4Iter 255).1 4 7 (c4H 255) 0 := by
    unfold c4FinalFree
    rw [hh]
  obtain ⟨f1, f2, f3⟩ := c4Final_spec (c4Iter 255).1 ha
  rw [hff]
  exact ⟨by decide, f1, f2, f3⟩

/-- Claim C8, counterexample.  Unlocking a body whose `cExclusiveLock` is
already zero does not leave it at zero: the unconditional
`InterlockedDecrement` wraps the 32-bit counter to `0xFFFFFFFF` (i.e. `-1`
as the signed `LONG` the code reads back — the `ASSERT(cLocks >= 0)` is
compiled out under `NDEBUG`). -/
theorem unlockObj_claimC8_counterexample :
    (GDIOBJ_UnlockObjByPtr ⟨none, 0, 0, 7, false⟩).2.cExclusiveLock = 4294967295 ∧
    ¬ (GDIOBJ_UnlockObjByPtr ⟨none, 0, 0, 7, false⟩).2.cExclusiveLock = 0 := by
  constructor
  · rfl
  · decide

/-- Claim C8, amended: `GDIOBJ_UnlockObjByPtr` decrements
`cExclusiveLock` by one unconditionally, modulo `2 ^ 32`: on a positive
in-range depth the result is exactly one less, but on a zero depth the
counter wraps to `2 ^ 32 - 1` (the debug-only assertion notwithstanding, no
clamping at zero is performed). -/
theorem unlockObj_decrements (o : BASEOBJECT) :
    (GDIOBJ_UnlockObjByPtr o).2.cExclusiveLock =
      (o.cExclusiveLock + 4294967296 - 1) % 4294967296 ∧
    (0 < o.cExclusiveLock → o.cExclusiveLock < 4294967296 →
      (GDIOBJ_UnlockObjByPtr o).2.cExclusiveLock = o.cExclusiveLock - 1) := by
  refine ⟨rfl, fun h1 h2 => ?_⟩
  show (o.cExclusiveLock + 4294967296 - 1) % 4294967296 = o.cExclusiveLock - 1
  omega

/-- Witness for the amended claim C8 theorem at depth 5. -/
theorem unlockObj_decrements_witness :
    0 < 5 ∧
    (GDIOBJ_UnlockObjByPtr ⟨some 10, 2, 5, 7, false⟩).2.cExclusiveLock = 4 :=
  ⟨by decide, (unlockObj_decrements ⟨some 10, 2, 5, 7, false⟩).2 (by decide) (by decide)⟩
